import Mathlib

/-!
Shallow embedding of the `mi` library's extension-ownership and
dynamic-module-lifecycle subsystem (files `src/dynamic_library.cpp`,
`src/dynamic_module.cpp`, `src/dynamic_loader.cpp`, `inc/mi/container.hpp`,
`inc/mi/unique_container.hpp`, `inc/mi/base_loader.hpp`, `inc/mi/filter.hpp`,
`inc/mi/format.hpp`).

Platform services (`dlopen`/`dlsym`/`dlclose`, filesystem readability, the
behaviour of library-exported functions) are abstracted into an `OSEnv`
record; the embedded operations are explicit state-passing functions that
additionally return the trace of externally observable events (library
opened/closed, exported hook invoked, `try_call` handler invoked) and an
optional thrown exception.
-/

namespace Mi

/-- An OS-level dynamic-library handle (`os::dynamic_library_handle_t`);
`none` models the null handle. We only need an identity, so `Nat`. -/
abbrev Handle := Nat

/-- A filesystem path (`fs::path_t`), modelled as the list of components of
an absolute path: `/opt/app/modules/foo.so` is
`⟨["opt", "app", "modules", "foo.so"]⟩`. -/
structure Path where
  components : List String
deriving DecidableEq, Repr

/-- `std::filesystem::path::parent_path`: drops the final component. -/
def Path.parent_path (p : Path) : Path :=
  ⟨p.components.dropLast⟩

/-- `operator/` on paths: appends one component. -/
def Path.append (p : Path) (s : String) : Path :=
  ⟨p.components ++ [s]⟩

/-- The suffix of a character list starting at its LAST dot, or `none`
when the list has no dot. -/
def afterLastDot : List Char → Option (List Char)
  | [] => none
  | c :: cs =>
    match afterLastDot cs with
    | some suf => some suf
    | none => if c = '.' then some (c :: cs) else none

/-- `std::filesystem::path::extension()` on the final component: the
substring of the filename from its last dot, except that `"."`, `".."`,
and a filename whose only dot is its leading character have no extension. -/
def Path.extension (p : Path) : String :=
  match p.components.getLast? with
  | none => ""
  | some f =>
    if f = "." ∨ f = ".." then ""
    else
      match f.toList with
      | [] => ""
      | _ :: rest =>
        match afterLastDot rest with
        | some suf => String.mk suf
        | none => ""

/-- The platform's canonical dynamic-library extension
(`os::DYNAMIC_LIBRARY_EXTENSION`, Unix-like build). -/
def DYNAMIC_LIBRARY_EXTENSION : String := ".so"

/-- The payloads of `dynamic_library_exception` (= `DynamicLibraryError`),
one constructor per throw site in `dynamic_library.cpp` /
`dynamic_library.hpp`. -/
inductive DLError where
  /-- "no read access (path: {})" -/
  | noReadAccess (path : Path)
  /-- "invalid extension (path: {})" -/
  | invalidExtension (path : Path)
  /-- "already loaded (path: {})" -/
  | alreadyLoaded (path : Path)
  /-- `load`: platform `dlopen` left the handle null; carries the platform
  message of `last_error_message()`. -/
  | platformLoadFailure (msg : String)
  /-- `unload`: library still loaded after the `dlclose` attempt. -/
  | platformUnloadFailure (msg : String)
  /-- `sym`: "failed to get symbol, dynamic library is not loaded
  (symbol: {}, path: {})" -/
  | notLoaded (symbol : String) (path : Path)
  /-- `call`: "no function from dynamic library (function: {}, path: {})" -/
  | noFunction (symbol : String) (path : Path)
deriving DecidableEq, Repr

/-- Any C++ exception derived from `std::exception` that the subsystem can
see: a `dynamic_library_exception`, or an exception thrown by invoked
library-resident code. -/
inductive CppException where
  | dl (e : DLError)
  | other (msg : String)
deriving DecidableEq, Repr

/-- Externally observable events, used as the ordered log of the
lifecycle operations. -/
inductive Event where
  /-- platform `dlopen` succeeded for this path -/
  | opened (p : Path)
  /-- platform `dlclose` succeeded for this path -/
  | closed (p : Path)
  /-- the exported function `name` of the library at `p` was invoked -/
  | hookInvoked (p : Path) (name : String)
  /-- a non-empty `try_call` handler was invoked with this exception -/
  | handlerRan (e : CppException)
deriving DecidableEq, Repr

/-- An ordered event log. -/
abbrev Trace := List Event

/-- `module_info`: the immutable record {author, name, version, description}
returned by a library's `on_module_info` export. -/
structure ModuleInfoV where
  author : String
  name : String
  version : String
  description : String
deriving DecidableEq, Repr

/-- The platform collaborators of §6 of the design: filesystem readability,
`dlopen`/`dlsym`/`dlclose`, the last platform error message, and the
behaviour of library-resident functions when invoked (`invoke` for
`void`-returning exported hooks, `infoImpl` for `on_module_info`;
`Except.error msg` models the callee throwing). -/
structure OSEnv where
  readable : Path → Bool
  dlopenHandle : Path → Option Handle
  dlsym : Handle → String → Bool
  dlcloseSucceeds : Handle → Bool
  lastError : String
  invoke : Handle → String → Except String Unit
  infoImpl : Handle → Except String ModuleInfoV

/-- `dl::dynamic_library`: an immutable path plus the OS handle
(`m_handle == nullptr` ↔ `none`). Constructed with a null handle. -/
structure DynamicLibrary where
  m_path : Path
  m_handle : Option Handle
deriving DecidableEq, Repr

namespace DynamicLibrary

/-- `dynamic_library::dynamic_library(path)`: stores the path, null handle. -/
def mk0 (p : Path) : DynamicLibrary :=
  { m_path := p, m_handle := none }

/-- `is_unloaded(): return m_handle == nullptr`. -/
def is_unloaded (l : DynamicLibrary) : Bool :=
  l.m_handle = none

/-- `is_loaded(): return !is_unloaded()`. -/
def is_loaded (l : DynamicLibrary) : Bool :=
  !l.is_unloaded

/-- `dynamic_library::load()`. Checks readability, extension and current
state in the source's order, each failure throwing a
`dynamic_library_exception`; then the `dlopen` result is assigned to
`m_handle`, and a still-null handle throws with the platform message.
Returns (state after the call, events, thrown exception if any). -/
def load (env : OSEnv) (l : DynamicLibrary) :
    DynamicLibrary × Trace × Option DLError :=
  if !env.readable l.m_path then
    (l, [], some (.noReadAccess l.m_path))
  else if l.m_path.extension ≠ DYNAMIC_LIBRARY_EXTENSION then
    (l, [], some (.invalidExtension l.m_path))
  else if l.is_loaded then
    (l, [], some (.alreadyLoaded l.m_path))
  else
    let l' : DynamicLibrary := { l with m_handle := env.dlopenHandle l.m_path }
    if l'.is_unloaded then
      (l', [], some (.platformLoadFailure env.lastError))
    else
      (l', [Event.opened l.m_path], none)

/-- `dynamic_library::unload()`. If loaded, attempts the platform
`dlclose`; on success the handle is cleared. If the library is still
loaded afterwards, throws with the platform message; unloading an
already-unloaded library is a successful no-op. -/
def unload (env : OSEnv) (l : DynamicLibrary) :
    DynamicLibrary × Trace × Option DLError :=
  let step : DynamicLibrary × Trace :=
    if l.is_loaded then
      match l.m_handle with
      | some h =>
        if env.dlcloseSucceeds h then
          ({ l with m_handle := none }, [Event.closed l.m_path])
        else
          (l, [])
      | none => (l, [])
    else (l, [])
  if step.1.is_loaded then
    (step.1, step.2, some (.platformUnloadFailure env.lastError))
  else
    (step.1, step.2, none)

/-- `dynamic_library::sym(name)`: throws when unloaded, otherwise the
`dlsym` result (`true` ↔ the raw symbol pointer is non-null). `const`, so
no state is returned. -/
def sym (env : OSEnv) (l : DynamicLibrary) (name : String) :
    Except DLError Bool :=
  if l.is_unloaded then
    .error (.notLoaded name l.m_path)
  else
    match l.m_handle with
    | some h => .ok (env.dlsym h name)
    | none => .ok false

/-- `dynamic_library::call<Sig>(name, args...)`: resolves `name` via
`sym` (propagating its exception), throws `no function…` when the symbol
is absent, otherwise invokes it; `impl` gives the callee's behaviour for
the signature at hand (`Except.error msg` = the callee threw). Returns
the call's result and the event trace. -/
def call (env : OSEnv) (l : DynamicLibrary) (name : String)
    (impl : Handle → Except String α) : Except CppException α × Trace :=
  match l.m_handle with
  | none => (.error (.dl (.notLoaded name l.m_path)), [])
  | some h =>
    if env.dlsym h name then
      match impl h with
      | .ok a => (.ok a, [Event.hookInvoked l.m_path name])
      | .error msg => (.error (.other msg), [Event.hookInvoked l.m_path name])
    else
      (.error (.dl (.noFunction name l.m_path)), [])

/-- `dynamic_library::try_call<Sig>(name, callback, args...)` (`noexcept`):
runs `call`; on any `std::exception` invokes the callback when it is
non-empty (`handlerPresent`), and produces a default-constructed value
(`Inhabited.default`) when the return type is non-void. Never throws:
the result is total. -/
def try_call [Inhabited α] (env : OSEnv) (l : DynamicLibrary) (name : String)
    (handlerPresent : Bool) (impl : Handle → Except String α) : α × Trace :=
  match call env l name impl with
  | (.ok a, tr) => (a, tr)
  | (.error e, tr) =>
    (default, tr ++ if handlerPresent then [Event.handlerRan e] else [])

end DynamicLibrary

/-- `mi::format::interpolate_stream` on char lists: split the format at its
FIRST `"{}"` placeholder, or `none` when there is none. -/
def splitPlaceholder : List Char → Option (List Char × List Char)
  | [] => none
  | '{' :: '}' :: rest => some ([], rest)
  | c :: rest =>
    match splitPlaceholder rest with
    | some (pre, post) => some (c :: pre, post)
    | none => none

/-- `mi::format::interpolate_string(format, args...)`: substitutes the
arguments, left to right, for successive `"{}"` placeholders; when the
format has no further placeholder the remaining arguments are dropped and
the rest of the format is emitted verbatim. -/
def interpolate_string (fmt : List Char) : List String → List Char
  | [] => fmt
  | a :: args =>
    match splitPlaceholder fmt with
    | none => fmt
    | some (pre, post) => pre ++ a.toList ++ interpolate_string post args

namespace DynamicModule

open DynamicLibrary

/-- `dynamic_module::load()`: `dynamic_library::load()` first (its
exception propagates, and then the hook is never attempted); on success,
`try_call<void(dynamic_module &)>("on_module_load", {}, *this)` — the
handler is the empty (default-constructed, null) `std::function`, so
`handlerPresent := false`. The `dynamic_module`'s library state is
unchanged by the hook. -/
def load (env : OSEnv) (l : DynamicLibrary) :
    DynamicLibrary × Trace × Option DLError :=
  match DynamicLibrary.load env l with
  | (l', tr, some e) => (l', tr, some e)
  | (l', tr, none) =>
    let hook := try_call env l' "on_module_load" false
      (fun h => env.invoke h "on_module_load")
    (l', tr ++ hook.2, none)

/-- `dynamic_module::unload()`: the inverse order — first
`try_call<void(dynamic_module &)>("on_module_unload", {}, *this)`, then
`dynamic_library::unload()`. -/
def unload (env : OSEnv) (l : DynamicLibrary) :
    DynamicLibrary × Trace × Option DLError :=
  let hook := try_call env l "on_module_unload" false
    (fun h => env.invoke h "on_module_unload")
  match DynamicLibrary.unload env l with
  | (l', tr, oe) => (l', hook.2 ++ tr, oe)

/-- `dynamic_module::info()`:
`call<const module_info &()>("on_module_info")`. -/
def info (env : OSEnv) (l : DynamicLibrary) :
    Except CppException ModuleInfoV × Trace :=
  call env l "on_module_info" env.infoImpl

/-- `dynamic_module::classname()`:
`interpolate_string("{}::{}", extension::classname(), info().name)`;
`extName` is the result of the `extension`-level `classname()` (a
demangled run-time type name supplied by Boost). An exception from
`info()` propagates out of the argument evaluation. -/
def classname (env : OSEnv) (l : DynamicLibrary) (extName : String) :
    Except CppException String × Trace :=
  match info env l with
  | (.ok i, tr) =>
    (.ok (String.mk (interpolate_string "{}::{}".toList [extName, i.name])), tr)
  | (.error e, tr) => (.error e, tr)

/-- `dynamic_module::root_path()`: `path().parent_path()`. -/
def root_path (l : DynamicLibrary) : Path :=
  l.m_path.parent_path

/-- `dynamic_module::config_dir()`: `root_path().parent_path() / "config"`. -/
def config_dir (l : DynamicLibrary) : Path :=
  (root_path l).parent_path.append "config"

end DynamicModule

/-- `dynamic_loader`: its own `dynamic_module` part (a `DynamicLibrary`
state) plus the `base_loader<dynamic_module>` children — a vector of
`unique_ptr<dynamic_module>`, so each slot is `Option` of a child's
library state, in insertion order. -/
structure DynamicLoader where
  self : DynamicLibrary
  children : List (Option DynamicLibrary)
deriving DecidableEq, Repr

namespace DynamicLoader

open DynamicLibrary

/-- One forward pass of `filter::iterate(begin(), end(), …load…, …)` used by
`dynamic_loader::load_modules()`: skip null slots and loaded children
(the filter is `module != nullptr && module->is_unloaded()`), call
`module->load()` on the rest; an exception thrown by a child's `load()`
propagates at once and halts the traversal. -/
def load_go (env : OSEnv) :
    List (Option DynamicLibrary) →
      List (Option DynamicLibrary) × Trace × Option DLError
  | [] => ([], [], none)
  | none :: rest =>
    let (rest', tr, oe) := load_go env rest
    (none :: rest', tr, oe)
  | some c :: rest =>
    if c.is_unloaded then
      match DynamicModule.load env c with
      | (c', tr, some e) => (some c' :: rest, tr, some e)
      | (c', tr, none) =>
        let (rest', tr2, oe) := load_go env rest
        (some c' :: rest', tr ++ tr2, oe)
    else
      let (rest', tr, oe) := load_go env rest
      (some c :: rest', tr, oe)

/-- `dynamic_loader::load_modules()`. -/
def load_modules (env : OSEnv) (cs : List (Option DynamicLibrary)) :
    List (Option DynamicLibrary) × Trace × Option DLError :=
  load_go env cs

/-- The reverse pass of `filter::iterate(rbegin(), rend(), …unload…, …)`
used by `dynamic_loader::unload_modules()`, written over the already
reversed list: skip null slots and unloaded children (the filter is
`module != nullptr && module->is_loaded()`), call `module->unload()` on
the rest, propagating a thrown exception at once. -/
def unload_go (env : OSEnv) :
    List (Option DynamicLibrary) →
      List (Option DynamicLibrary) × Trace × Option DLError
  | [] => ([], [], none)
  | none :: rest =>
    let (rest', tr, oe) := unload_go env rest
    (none :: rest', tr, oe)
  | some c :: rest =>
    if c.is_loaded then
      match DynamicModule.unload env c with
      | (c', tr, some e) => (some c' :: rest, tr, some e)
      | (c', tr, none) =>
        let (rest', tr2, oe) := unload_go env rest
        (some c' :: rest', tr ++ tr2, oe)
    else
      let (rest', tr, oe) := unload_go env rest
      (some c :: rest', tr, oe)

/-- `dynamic_loader::unload_modules()`: iterate `rbegin()`→`rend()`, i.e.
the reverse of insertion order (the updated slots are put back in their
original positions). -/
def unload_modules (env : OSEnv) (cs : List (Option DynamicLibrary)) :
    List (Option DynamicLibrary) × Trace × Option DLError :=
  let (rev', tr, oe) := unload_go env cs.reverse
  (rev'.reverse, tr, oe)

/-- `dynamic_loader::load()`: `dynamic_module::load()` (self) first, then
`load_modules()`; an exception from either propagates (self failing means
the children are never traversed). -/
def load (env : OSEnv) (L : DynamicLoader) :
    DynamicLoader × Trace × Option DLError :=
  match DynamicModule.load env L.self with
  | (s', tr, some e) => ({ L with self := s' }, tr, some e)
  | (s', tr, none) =>
    let (cs', tr2, oe) := load_modules env L.children
    (⟨s', cs'⟩, tr ++ tr2, oe)

/-- `dynamic_loader::unload()`: `unload_modules()` first, then
`dynamic_module::unload()` (self) last; an exception from the children
halts before self is unloaded. -/
def unload (env : OSEnv) (L : DynamicLoader) :
    DynamicLoader × Trace × Option DLError :=
  let (cs', tr, oe) := unload_modules env L.children
  match oe with
  | some e => ({ L with children := cs' }, tr, some e)
  | none =>
    match DynamicModule.unload env L.self with
    | (s', tr2, oe2) => (⟨s', cs'⟩, tr ++ tr2, oe2)

end DynamicLoader

/-- Projection of a trace onto the paths of its `opened` events. -/
def openedPaths (tr : Trace) : List Path :=
  tr.filterMap fun e =>
    match e with
    | .opened p => some p
    | _ => none

/-- Projection of a trace onto the paths of its `closed` events. -/
def closedPaths (tr : Trace) : List Path :=
  tr.filterMap fun e =>
    match e with
    | .closed p => some p
    | _ => none

/-- Does an event record that an exported hook was invoked? -/
def Event.isHookInvoked : Event → Bool
  | .hookInvoked _ _ => true
  | _ => false

/-- Does an event record that a `try_call` handler was invoked? -/
def Event.isHandlerRan : Event → Bool
  | .handlerRan _ => true
  | _ => false

/-- Outcome of a container element access: a value, a thrown
`range_error` / `null_pointer_exception` (each carrying the offending
index, as in the source's format strings), or undefined behaviour (an
out-of-contract unchecked access). -/
inductive CResult (α : Type u) where
  | ok (a : α)
  | rangeError (index : Nat)
  | nullPointerError (index : Nat)
  | undefinedBehavior
deriving DecidableEq, Repr

namespace Container

/-- `container::exists(index): return index < size()`; the container's
backing `std::vector m_values` is the list `xs`. -/
def exists_ (xs : List α) (index : Nat) : Bool :=
  index < xs.length

/-- `container::at_unsafe(index): return m_values[index]` — no bounds
check; an out-of-range index is undefined behaviour. -/
def at_unsafe (xs : List α) (index : Nat) : CResult α :=
  if h : index < xs.length then .ok (xs.get ⟨index, h⟩)
  else .undefinedBehavior

/-- `container::operator[](index)`: equivalent to `at_unsafe`. -/
def opIndex (xs : List α) (index : Nat) : CResult α :=
  at_unsafe xs index

/-- `container::at(index)`: `if (exists(index)) return at_unsafe(index);
throw range_error("index is out of range (index: {})", index)`. `at`
only reads the container, so no state is returned. -/
def at_ (xs : List α) (index : Nat) : CResult α :=
  if exists_ xs index then at_unsafe xs index
  else .rangeError index

end Container

namespace UniqueContainer

/-- Bind for `CResult`: runs the continuation on a produced value and
propagates a throw or undefined behaviour (sequencing of C++ calls). -/
def CResult.bind : CResult α → (α → CResult β) → CResult β
  | .ok a, f => f a
  | .rangeError i, _ => .rangeError i
  | .nullPointerError i, _ => .nullPointerError i
  | .undefinedBehavior, _ => .undefinedBehavior

/-- `unique_container::get_unsafe(index): return *this->at(index)` — the
bounds-checked `at` on the backing vector of `unique_ptr`s (slot type
`Option α`), then a dereference of the `unique_ptr`, which is undefined
behaviour when the slot is null. -/
def get_unsafe (xs : List (Option α)) (index : Nat) : CResult α :=
  CResult.bind (Container.at_ xs index) fun slot =>
    match slot with
    | some a => .ok a
    | none => .undefinedBehavior

/-- `unique_container::is_value_null(index):
return this->at(index) == nullptr` (so `at` may throw first). -/
def is_value_null (xs : List (Option α)) (index : Nat) : CResult Bool :=
  CResult.bind (Container.at_ xs index) fun slot => .ok slot.isNone

/-- `unique_container::throw_if_value_equal_null(index)`: throws
`null_pointer_exception("no value assigned (index: {})", index)` when the
slot is null. -/
def throw_if_value_equal_null (xs : List (Option α)) (index : Nat) :
    CResult Unit :=
  CResult.bind (is_value_null xs index) fun b =>
    if b then .nullPointerError index else .ok ()

/-- `unique_container::get(index)`: `throw_if_value_equal_null(index)`
then `get_unsafe(index)`. -/
def get (xs : List (Option α)) (index : Nat) : CResult α :=
  CResult.bind (throw_if_value_equal_null xs index) fun _ =>
    get_unsafe xs index

/-- `unique_container::operator()(index): return get_unsafe(index)`. -/
def opCall (xs : List (Option α)) (index : Nat) : CResult α :=
  get_unsafe xs index

end UniqueContainer

namespace BaseLoader

/-- The action `object.reset()` of `~base_loader` applied along a slot
list: resetting a non-null `unique_ptr` destroys the pointee (logged),
resetting a null one destroys nothing. Returns the destruction log in
traversal order. -/
def resetEvents : List (Option α) → List α
  | [] => []
  | none :: rest => resetEvents rest
  | some a :: rest => a :: resetEvents rest

/-- `~base_loader()`: `filter::iterate(rbegin(), rend(), reset)` — resets
every slot from the last inserted to the first, so the destruction log is
the traversal of the reversed slot list. (The base container's own
teardown then destroys only already-null slots.) -/
def destructLog (xs : List (Option α)) : List α :=
  resetEvents xs.reverse

end BaseLoader

/-! Concrete fixtures used to instantiate the theorems below. -/

/-- A success-path platform environment: every path readable, `dlopen`
yields handle 1, the libraries export no symbols, `dlclose` succeeds. -/
def envOk : OSEnv where
  readable := fun _ => true
  dlopenHandle := fun _ => some 1
  dlsym := fun _ _ => false
  dlcloseSucceeds := fun _ => true
  lastError := "platform error"
  invoke := fun _ _ => Except.ok ()
  infoImpl := fun _ => Except.ok ⟨"au", "core", "1.0", "demo"⟩

/-- `/opt/app/modules/self.so` -/
def pathSelf : Path := ⟨["opt", "app", "modules", "self.so"]⟩

/-- `/opt/app/modules/a.so` -/
def pathA : Path := ⟨["opt", "app", "modules", "a.so"]⟩

/-- `/opt/app/modules/b.so` -/
def pathB : Path := ⟨["opt", "app", "modules", "b.so"]⟩

/-- `/opt/app/modules/c.so` -/
def pathC : Path := ⟨["opt", "app", "modules", "c.so"]⟩

/-- `/opt/app/modules/foo.so`, the path used by the spec's
`config_dir()` scenario. -/
def pathFoo : Path := ⟨["opt", "app", "modules", "foo.so"]⟩

/-- A freshly constructed (unloaded) library at `pathSelf`. -/
def libSelf : DynamicLibrary := ⟨pathSelf, none⟩

/-- A freshly constructed (unloaded) library at `pathA`. -/
def libA : DynamicLibrary := ⟨pathA, none⟩

/-- A freshly constructed (unloaded) library at `pathB`. -/
def libB : DynamicLibrary := ⟨pathB, none⟩

/-- A freshly constructed (unloaded) library at `pathC`. -/
def libC : DynamicLibrary := ⟨pathC, none⟩

/-- A library at `pathFoo` whose `load()` has succeeded (handle 7). -/
def libLoaded : DynamicLibrary := ⟨pathFoo, some 7⟩

/-! Helper lemmas about the shapes of event traces. -/

/-- `openedPaths` distributes over trace concatenation. -/
theorem openedPaths_append (t1 t2 : Trace) :
    openedPaths (t1 ++ t2) = openedPaths t1 ++ openedPaths t2 :=
  List.filterMap_append t1 t2 _

/-- `closedPaths` distributes over trace concatenation. -/
theorem closedPaths_append (t1 t2 : Trace) :
    closedPaths (t1 ++ t2) = closedPaths t1 ++ closedPaths t2 :=
  List.filterMap_append t1 t2 _

/-- The empty trace has no `opened` events. -/
theorem openedPaths_nil : openedPaths ([] : Trace) = [] := rfl

/-- The empty trace has no `closed` events. -/
theorem closedPaths_nil : closedPaths ([] : Trace) = [] := rfl

/-- An `opened` event contributes its path to `openedPaths`. -/
theorem openedPaths_cons_opened (p : Path) (t : Trace) :
    openedPaths (Event.opened p :: t) = p :: openedPaths t := rfl

/-- A `closed` event contributes its path to `closedPaths`. -/
theorem closedPaths_cons_closed (p : Path) (t : Trace) :
    closedPaths (Event.closed p :: t) = p :: closedPaths t := rfl

/-- A `closed` event contributes nothing to `openedPaths`. -/
theorem openedPaths_cons_closed (p : Path) (t : Trace) :
    openedPaths (Event.closed p :: t) = openedPaths t := rfl

/-- An `opened` event contributes nothing to `closedPaths`. -/
theorem closedPaths_cons_opened (p : Path) (t : Trace) :
    closedPaths (Event.opened p :: t) = closedPaths t := rfl

/-- The trace of `dynamic_library::load` is either empty (all failure
branches) or the single `opened` event of the success branch, and in the
latter case no exception was thrown. -/
theorem dl_load_trace_shape (env : OSEnv) (l : DynamicLibrary) :
    (DynamicLibrary.load env l).2.1 = [] ∨
    ((DynamicLibrary.load env l).2.1 = [Event.opened l.m_path] ∧
      (DynamicLibrary.load env l).2.2 = none) := by
  simp only [DynamicLibrary.load]
  split
  · left; rfl
  · split
    · left; rfl
    · split
      · left; rfl
      · split
        · left; rfl
        · right; exact ⟨rfl, rfl⟩

/-- The trace of `dynamic_library::call` is either empty (not loaded, or
symbol absent) or the single invocation event of the named function. -/
theorem dl_call_trace_shape (env : OSEnv) (l : DynamicLibrary) (name : String)
    (impl : Handle → Except String α) :
    (DynamicLibrary.call env l name impl).2 = [] ∨
    (DynamicLibrary.call env l name impl).2 = [Event.hookInvoked l.m_path name] := by
  unfold DynamicLibrary.call
  cases hm : l.m_handle with
  | none => left; rfl
  | some h =>
    by_cases hs : env.dlsym h name
    · cases hi : impl h <;> simp [hs, hi]
    · simp [hs]

/-- With the empty (null `std::function`) handler, the trace of
`try_call` is exactly the trace of the underlying `call`. -/
theorem dl_try_call_false_trace (env : OSEnv) (l : DynamicLibrary)
    (name : String) [Inhabited α] (impl : Handle → Except String α) :
    (DynamicLibrary.try_call env l name false impl).2
      = (DynamicLibrary.call env l name impl).2 := by
  unfold DynamicLibrary.try_call
  rcases hc : DynamicLibrary.call env l name impl with ⟨r, tr⟩
  cases r <;> simp

/-- A `try_call` emits no `opened` and no `closed` event, with or without
a handler. -/
theorem dl_try_call_no_lifecycle_events (env : OSEnv) (l : DynamicLibrary)
    (name : String) (hp : Bool) [Inhabited α] (impl : Handle → Except String α) :
    openedPaths (DynamicLibrary.try_call env l name hp impl).2 = [] ∧
    closedPaths (DynamicLibrary.try_call env l name hp impl).2 = [] := by
  unfold DynamicLibrary.try_call
  rcases hc : DynamicLibrary.call env l name impl with ⟨r, tr⟩
  have htr : tr = [] ∨ tr = [Event.hookInvoked l.m_path name] := by
    have hshape := dl_call_trace_shape env l name impl
    rw [hc] at hshape
    exact hshape
  cases r with
  | ok a =>
    rcases htr with h | h <;> simp [h, openedPaths, closedPaths]
  | error e =>
    rcases htr with h | h <;> cases hp <;>
      simp [h, openedPaths, closedPaths, List.filterMap_append]

/-- With the empty handler no `handlerRan` event can appear in a
`try_call` trace. -/
theorem dl_try_call_empty_handler_silent (env : OSEnv) (l : DynamicLibrary)
    (name : String) [Inhabited α] (impl : Handle → Except String α) :
    ((DynamicLibrary.try_call env l name false impl).2).all
      (fun ev => !ev.isHandlerRan) = true := by
  rw [dl_try_call_false_trace]
  rcases dl_call_trace_shape env l name impl with h | h <;>
    simp [h, Event.isHandlerRan]

/-- Success path of `dynamic_library::load`: an unloaded library whose
path is readable and carries the platform extension, on a platform whose
`dlopen` produces a handle, loads to exactly that handle and logs the
`opened` event. -/
theorem dl_load_ok (env : OSEnv) (l : DynamicLibrary) (h : Handle)
    (hu : l.m_handle = none)
    (hr : env.readable l.m_path = true)
    (he : l.m_path.extension = DYNAMIC_LIBRARY_EXTENSION)
    (ho : env.dlopenHandle l.m_path = some h) :
    DynamicLibrary.load env l
      = (⟨l.m_path, some h⟩, [Event.opened l.m_path], none) := by
  obtain ⟨p, hd⟩ := l
  simp only at hu hr he ho
  subst hu
  simp [DynamicLibrary.load, DynamicLibrary.is_loaded,
    DynamicLibrary.is_unloaded, hr, he, ho]

/-- Success path of `dynamic_library::unload`: a loaded library on a
platform whose `dlclose` succeeds clears its handle and logs the `closed`
event. -/
theorem dl_unload_ok (env : OSEnv) (l : DynamicLibrary) (h : Handle)
    (hm : l.m_handle = some h)
    (hc : env.dlcloseSucceeds h = true) :
    DynamicLibrary.unload env l
      = (⟨l.m_path, none⟩, [Event.closed l.m_path], none) := by
  obtain ⟨p, hd⟩ := l
  simp only at hm
  subst hm
  simp [DynamicLibrary.unload, DynamicLibrary.is_loaded,
    DynamicLibrary.is_unloaded, hc]

/-- Success path of `dynamic_module::load`: the library loads as in
`dl_load_ok` and the subsequent `on_module_load` `try_call` contributes
only hook events (no `opened`/`closed`). -/
theorem dm_load_ok (env : OSEnv) (l : DynamicLibrary) (h : Handle)
    (hu : l.m_handle = none)
    (hr : env.readable l.m_path = true)
    (he : l.m_path.extension = DYNAMIC_LIBRARY_EXTENSION)
    (ho : env.dlopenHandle l.m_path = some h) :
    ∃ tr : Trace,
      DynamicModule.load env l
        = (⟨l.m_path, some h⟩, Event.opened l.m_path :: tr, none) ∧
      openedPaths tr = [] ∧ closedPaths tr = [] := by
  have hl := dl_load_ok env l h hu hr he ho
  refine ⟨(DynamicLibrary.try_call env ⟨l.m_path, some h⟩ "on_module_load" false
      (fun hh => env.invoke hh "on_module_load")).2, ?_, ?_, ?_⟩
  · simp [DynamicModule.load, hl]
  · exact (dl_try_call_no_lifecycle_events env ⟨l.m_path, some h⟩
      "on_module_load" false _).1
  · exact (dl_try_call_no_lifecycle_events env ⟨l.m_path, some h⟩
      "on_module_load" false _).2

/-- Success path of `dynamic_module::unload`: the `on_module_unload`
`try_call` contributes only hook events, then the library unloads as in
`dl_unload_ok`. -/
theorem dm_unload_ok (env : OSEnv) (l : DynamicLibrary) (h : Handle)
    (hm : l.m_handle = some h)
    (hc : env.dlcloseSucceeds h = true) :
    ∃ tr : Trace,
      DynamicModule.unload env l
        = (⟨l.m_path, none⟩, tr ++ [Event.closed l.m_path], none) ∧
      openedPaths tr = [] ∧ closedPaths tr = [] := by
  have hl := dl_unload_ok env l h hm hc
  refine ⟨(DynamicLibrary.try_call env l "on_module_unload" false
      (fun hh => env.invoke hh "on_module_unload")).2, ?_, ?_, ?_⟩
  · simp [DynamicModule.unload, hl]
  · exact (dl_try_call_no_lifecycle_events env l "on_module_unload" false _).1
  · exact (dl_try_call_no_lifecycle_events env l "on_module_unload" false _).2

/-! The claims. -/

/-- C2: destroying a `base_loader` collection resets its held (non-null)
elements in exactly the reverse of their insertion order: the destruction
log is the reverse of the sequence of held elements. -/
theorem base_loader_destroys_in_reverse_insertion_order
    {α : Type} (xs : List (Option α)) :
    BaseLoader.destructLog xs = (xs.filterMap id).reverse := by
  have hre : ∀ ys : List (Option α), BaseLoader.resetEvents ys = ys.filterMap id := by
    intro ys
    induction ys with
    | nil => rfl
    | cons y rest ih => cases y <;> simp [BaseLoader.resetEvents, ih]
  unfold BaseLoader.destructLog
  rw [hre, List.filterMap_reverse]

/-- C3: a second `dynamic_library::load()` on an already-loaded library
(no intervening `unload()`) throws a `dynamic_library_exception` and
leaves the object unchanged — still loaded, handle untouched. -/
theorem dynamic_library_double_load_fails_and_stays_loaded
    (env : OSEnv) (l : DynamicLibrary) (h : l.is_loaded = true) :
    ∃ e : DLError, DynamicLibrary.load env l = (l, [], some e) := by
  by_cases hr : env.readable l.m_path
  · by_cases he : l.m_path.extension = DYNAMIC_LIBRARY_EXTENSION
    · exact ⟨.alreadyLoaded l.m_path, by simp [DynamicLibrary.load, hr, he, h]⟩
    · exact ⟨.invalidExtension l.m_path, by simp [DynamicLibrary.load, hr, he]⟩
  · exact ⟨.noReadAccess l.m_path, by simp [DynamicLibrary.load, hr]⟩

/-- Witness for C3 at a concrete loaded library. -/
theorem dynamic_library_double_load_witness :
    libLoaded.is_loaded = true ∧
      ∃ e : DLError, DynamicLibrary.load envOk libLoaded = (libLoaded, [], some e) :=
  ⟨by decide,
    dynamic_library_double_load_fails_and_stays_loaded envOk libLoaded (by decide)⟩

/-- C4: `container::at(i)` returns the element at `i` exactly when
`0 ≤ i < size()`, and otherwise throws a `range_error` carrying the
offending index `i` (`at` only reads the container, so it is unchanged in
both cases by construction). -/
theorem container_at_succeeds_iff_in_bounds
    {α : Type} (xs : List α) (i : Nat) :
    (∀ h : i < xs.length, Container.at_ xs i = .ok (xs.get ⟨i, h⟩)) ∧
    (xs.length ≤ i → Container.at_ xs i = .rangeError i) ∧
    ((∃ a, Container.at_ xs i = .ok a) ↔ 0 ≤ i ∧ i < xs.length) := by
  refine ⟨?_, ?_, ?_⟩
  · intro h
    simp [Container.at_, Container.exists_, Container.at_unsafe, h]
  · intro h
    simp [Container.at_, Container.exists_, Nat.not_lt.mpr h]
  · constructor
    · rintro ⟨a, ha⟩
      by_cases h : i < xs.length
      · exact ⟨Nat.zero_le i, h⟩
      · simp [Container.at_, Container.exists_, h] at ha
    · rintro ⟨-, h⟩
      exact ⟨xs.get ⟨i, h⟩,
        by simp [Container.at_, Container.exists_, Container.at_unsafe, h]⟩

/-- Witness for C4: an in-bounds and an out-of-bounds access on a
concrete container. -/
theorem container_at_witness :
    Container.at_ [10, 20] 1 = .ok (20 : Nat) ∧
    Container.at_ [10, 20] 5 = .rangeError 5 :=
  ⟨(container_at_succeeds_iff_in_bounds [10, 20] 1).1 (by decide),
    (container_at_succeeds_iff_in_bounds [10, 20] 5).2.1 (by decide)⟩

/-- C7: `dynamic_library::unload()` on an unloaded library is a
successful no-op: no exception, no event, state unchanged with the
handle still null. -/
theorem dynamic_library_unload_unloaded_is_noop
    (env : OSEnv) (l : DynamicLibrary) (h : l.is_unloaded = true) :
    DynamicLibrary.unload env l = (l, [], none) ∧ l.m_handle = none := by
  have hm : l.m_handle = none := by
    simpa [DynamicLibrary.is_unloaded] using h
  refine ⟨?_, hm⟩
  simp [DynamicLibrary.unload, DynamicLibrary.is_loaded,
    DynamicLibrary.is_unloaded, hm]

/-- Witness for C7 at a concrete unloaded library. -/
theorem dynamic_library_unload_noop_witness :
    DynamicLibrary.unload envOk libSelf = (libSelf, [], none) ∧
      libSelf.m_handle = none :=
  dynamic_library_unload_unloaded_is_noop envOk libSelf (by decide)

/-- C8: `dynamic_module::config_dir()` is `root_path().parent / "config"`,
`root_path()` is the parent directory of the library path, and for the
library path `/opt/app/modules/foo.so` the configuration directory is
`/opt/app/config`. -/
theorem dynamic_module_config_dir_convention (l : DynamicLibrary) :
    DynamicModule.config_dir l
        = (DynamicModule.root_path l).parent_path.append "config" ∧
    DynamicModule.root_path l = l.m_path.parent_path ∧
    (l.m_path = ⟨["opt", "app", "modules", "foo.so"]⟩ →
      DynamicModule.root_path l = ⟨["opt", "app", "modules"]⟩ ∧
      DynamicModule.config_dir l = ⟨["opt", "app", "config"]⟩) := by
  refine ⟨rfl, rfl, fun hp => ?_⟩
  constructor
  · simp [DynamicModule.root_path, Path.parent_path, hp]
  · simp [DynamicModule.config_dir, DynamicModule.root_path,
      Path.parent_path, Path.append, hp]

/-- Witness for C8 at the spec's concrete module path. -/
theorem dynamic_module_config_dir_witness :
    DynamicModule.root_path libLoaded = ⟨["opt", "app", "modules"]⟩ ∧
    DynamicModule.config_dir libLoaded = ⟨["opt", "app", "config"]⟩ :=
  (dynamic_module_config_dir_convention libLoaded).2.2 rfl

/-- C9: on a `unique_container`, for every out-of-range index the
nominally unchecked accessors `get_unsafe`, `operator()` and the checked
`get` all throw `range_error` (because `get_unsafe` delegates to the
bounds-checked `at`), while the base container's `at_unsafe` and
`operator[]` are undefined behaviour there. -/
theorem unique_container_oob_throws_not_ub
    {α : Type} (xs : List (Option α)) (i : Nat) (h : xs.length ≤ i) :
    UniqueContainer.get_unsafe xs i = .rangeError i ∧
    UniqueContainer.opCall xs i = .rangeError i ∧
    UniqueContainer.get xs i = .rangeError i ∧
    Container.at_unsafe xs i = .undefinedBehavior ∧
    Container.opIndex xs i = .undefinedBehavior := by
  have hat : Container.at_ xs i = CResult.rangeError i := by
    simp [Container.at_, Container.exists_, Nat.not_lt.mpr h]
  have hub : Container.at_unsafe xs i = (CResult.undefinedBehavior : CResult (Option α)) := by
    simp [Container.at_unsafe, Nat.not_lt.mpr h]
  refine ⟨?_, ?_, ?_, hub, hub⟩
  · simp [UniqueContainer.get_unsafe, hat, UniqueContainer.CResult.bind]
  · simp [UniqueContainer.opCall, UniqueContainer.get_unsafe, hat,
      UniqueContainer.CResult.bind]
  · simp [UniqueContainer.get, UniqueContainer.throw_if_value_equal_null,
      UniqueContainer.is_value_null, hat, UniqueContainer.CResult.bind]

/-- Witness for C9 at a concrete container and index. -/
theorem unique_container_oob_witness :
    UniqueContainer.get_unsafe [some 3] 2 = (.rangeError 2 : CResult Nat) ∧
    UniqueContainer.opCall [some 3] 2 = (.rangeError 2 : CResult Nat) ∧
    UniqueContainer.get [some 3] 2 = (.rangeError 2 : CResult Nat) ∧
    Container.at_unsafe [some 3] 2 = (.undefinedBehavior : CResult (Option Nat)) ∧
    Container.opIndex [some 3] 2 = (.undefinedBehavior : CResult (Option Nat)) :=
  unique_container_oob_throws_not_ub [some 3] 2 (by decide)

/-- C6: on a loaded library, `call` with an absent symbol throws the
`no function…` `dynamic_library_exception` naming the symbol and the
library path, whereas `try_call` with a (non-empty) handler never throws:
it hands that exception to the handler and returns a default-constructed
value. -/
theorem call_missing_symbol_vs_try_call
    (env : OSEnv) (l : DynamicLibrary) (hdl : Handle) (name : String)
    {α : Type} [Inhabited α] (impl : Handle → Except String α)
    (hm : l.m_handle = some hdl)
    (habs : env.dlsym hdl name = false) :
    DynamicLibrary.call env l name impl
        = (.error (.dl (.noFunction name l.m_path)), []) ∧
    DynamicLibrary.try_call env l name true impl
        = (default, [Event.handlerRan (.dl (.noFunction name l.m_path))]) := by
  have hc : DynamicLibrary.call env l name impl
      = (.error (.dl (.noFunction name l.m_path)), []) := by
    simp [DynamicLibrary.call, hm, habs]
  exact ⟨hc, by simp [DynamicLibrary.try_call, hc]⟩

/-- Witness for C6 at a concrete loaded library and absent symbol. -/
theorem call_missing_symbol_witness :
    DynamicLibrary.call envOk libLoaded "missing" (fun _ => Except.ok (0 : Nat))
        = (.error (.dl (.noFunction "missing" libLoaded.m_path)), []) ∧
    DynamicLibrary.try_call envOk libLoaded "missing" true
        (fun _ => Except.ok (0 : Nat))
        = (default, [Event.handlerRan (.dl (.noFunction "missing" libLoaded.m_path))]) :=
  call_missing_symbol_vs_try_call envOk libLoaded 7 "missing"
    (fun _ => Except.ok (0 : Nat)) rfl rfl

/-- C10: on an unloaded `dynamic_module`, `info()` throws the
`dynamic_library_exception` of `sym` (the required `on_module_info`
export cannot be resolved while the library is not loaded), and
`classname()` — which composes the extension type name with
`info().name` — propagates the same exception, so it is only usable
after a successful `load()`. -/
theorem dynamic_module_info_classname_require_loaded
    (env : OSEnv) (l : DynamicLibrary) (extName : String)
    (h : l.is_unloaded = true) :
    DynamicModule.info env l
        = (.error (.dl (.notLoaded "on_module_info" l.m_path)), []) ∧
    DynamicModule.classname env l extName
        = (.error (.dl (.notLoaded "on_module_info" l.m_path)), []) := by
  have hm : l.m_handle = none := by
    simpa [DynamicLibrary.is_unloaded] using h
  have hinfo : DynamicModule.info env l
      = (.error (.dl (.notLoaded "on_module_info" l.m_path)), []) := by
    simp [DynamicModule.info, DynamicLibrary.call, hm]
  exact ⟨hinfo, by simp [DynamicModule.classname, hinfo]⟩

/-- Witness for C10 at a concrete unloaded module. -/
theorem dynamic_module_info_unloaded_witness :
    DynamicModule.info envOk libSelf
        = (.error (.dl (.notLoaded "on_module_info" libSelf.m_path)), []) ∧
    DynamicModule.classname envOk libSelf "mi::dynamic_module"
        = (.error (.dl (.notLoaded "on_module_info" libSelf.m_path)), []) :=
  dynamic_module_info_classname_require_loaded envOk libSelf
    "mi::dynamic_module" (by decide)

/-- C5: `dynamic_module::load()` calls `dynamic_library::load()` first —
when that throws, the exception propagates unchanged and the hook is
never attempted (the whole call, state, trace and exception, coincides
with the library-level `load()`, whose trace holds no hook invocation);
when it succeeds, the optional `on_module_load` hook is attempted through
`try_call` with the empty handler, and `load()` cannot fail any more,
whatever the hook does; the empty handler means no handler is ever
invoked. -/
theorem dynamic_module_load_hook_policy (env : OSEnv) (l : DynamicLibrary) :
    (∀ e : DLError, (DynamicLibrary.load env l).2.2 = some e →
      DynamicModule.load env l = DynamicLibrary.load env l ∧
      ((DynamicModule.load env l).2.1).all (fun ev => !ev.isHookInvoked) = true) ∧
    ((DynamicLibrary.load env l).2.2 = none →
      (DynamicModule.load env l).2.2 = none ∧
      (DynamicModule.load env l).1 = (DynamicLibrary.load env l).1 ∧
      (DynamicModule.load env l).2.1
        = (DynamicLibrary.load env l).2.1 ++
            (DynamicLibrary.try_call env (DynamicLibrary.load env l).1
              "on_module_load" false
              (fun h => env.invoke h "on_module_load")).2) ∧
    ((DynamicModule.load env l).2.1).all (fun ev => !ev.isHandlerRan) = true := by
  rcases hL : DynamicLibrary.load env l with ⟨l', tr, oe⟩
  have hshape := dl_load_trace_shape env l
  rw [hL] at hshape
  cases oe with
  | some e =>
    have htr : tr = [] := by
      rcases hshape with h | ⟨-, h⟩
      · exact h
      · simp at h
    subst htr
    refine ⟨fun e' _ => ⟨by simp [DynamicModule.load, hL], ?_⟩, ?_, ?_⟩
    · simp [DynamicModule.load, hL]
    · intro hc
      simp at hc
    · simp [DynamicModule.load, hL]
  | none =>
    have hmod : DynamicModule.load env l
        = (l', tr ++ (DynamicLibrary.try_call env l' "on_module_load" false
            (fun h => env.invoke h "on_module_load")).2, none) := by
      simp [DynamicModule.load, hL]
    refine ⟨fun e' he' => by simp at he', fun _ => ⟨?_, ?_, ?_⟩, ?_⟩
    · simp [hmod]
    · simp [hmod]
    · simp [hmod]
    · have htr : tr = [] ∨ tr = [Event.opened l.m_path] := by
        rcases hshape with h | ⟨h, -⟩
        · exact Or.inl h
        · exact Or.inr h
      have htc := dl_try_call_false_trace env l' "on_module_load"
        (fun h => env.invoke h "on_module_load")
      have hcs := dl_call_trace_shape env l' "on_module_load"
        (fun h => env.invoke h "on_module_load")
      rcases htr with h | h <;> rcases hcs with h2 | h2 <;>
        simp [hmod, h, htc, h2, Event.isHandlerRan]

/-- Witness for C5 on the success path at a concrete module (library
loads, hook missing, `load()` still succeeds). -/
theorem dynamic_module_load_hook_policy_witness :
    (DynamicModule.load envOk libSelf).2.2 = none ∧
    (DynamicModule.load envOk libSelf).1 = (DynamicLibrary.load envOk libSelf).1 ∧
    (DynamicModule.load envOk libSelf).2.1
      = (DynamicLibrary.load envOk libSelf).2.1 ++
          (DynamicLibrary.try_call envOk (DynamicLibrary.load envOk libSelf).1
            "on_module_load" false
            (fun h => envOk.invoke h "on_module_load")).2 :=
  (dynamic_module_load_hook_policy envOk libSelf).2.1 (by decide)

/-- C1: a `dynamic_loader` with the children `[A, B, C]` attached in that
order (all initially unloaded, on a platform where every load/unload
succeeds): `load()` opens the loader's own library first and then each
child in forward insertion order — the ordered log of `opened` events is
`[self, A, B, C]`; from the loaded state so reached, `unload()` closes
each child in reverse insertion order and the loader's own library last —
the log of `closed` events is `[C, B, A, self]`. -/
theorem dynamic_loader_load_unload_order (env : OSEnv)
    (s a b c : DynamicLibrary) (hs ha hb hc : Handle)
    (L : DynamicLoader) (hL : L = ⟨s, [some a, some b, some c]⟩)
    (hsu : s.m_handle = none) (hau : a.m_handle = none)
    (hbu : b.m_handle = none) (hcu : c.m_handle = none)
    (hsr : env.readable s.m_path = true) (har : env.readable a.m_path = true)
    (hbr : env.readable b.m_path = true) (hcr : env.readable c.m_path = true)
    (hse : s.m_path.extension = DYNAMIC_LIBRARY_EXTENSION)
    (hae : a.m_path.extension = DYNAMIC_LIBRARY_EXTENSION)
    (hbe : b.m_path.extension = DYNAMIC_LIBRARY_EXTENSION)
    (hce : c.m_path.extension = DYNAMIC_LIBRARY_EXTENSION)
    (hso : env.dlopenHandle s.m_path = some hs)
    (hao : env.dlopenHandle a.m_path = some ha)
    (hbo : env.dlopenHandle b.m_path = some hb)
    (hco : env.dlopenHandle c.m_path = some hc)
    (hscl : env.dlcloseSucceeds hs = true)
    (hacl : env.dlcloseSucceeds ha = true)
    (hbcl : env.dlcloseSucceeds hb = true)
    (hccl : env.dlcloseSucceeds hc = true) :
    (DynamicLoader.load env L).2.2 = none ∧
    openedPaths (DynamicLoader.load env L).2.1
      = [s.m_path, a.m_path, b.m_path, c.m_path] ∧
    (DynamicLoader.load env L).1
      = ⟨⟨s.m_path, some hs⟩,
          [some ⟨a.m_path, some ha⟩, some ⟨b.m_path, some hb⟩,
            some ⟨c.m_path, some hc⟩]⟩ ∧
    (DynamicLoader.unload env (DynamicLoader.load env L).1).2.2 = none ∧
    closedPaths (DynamicLoader.unload env (DynamicLoader.load env L).1).2.1
      = [c.m_path, b.m_path, a.m_path, s.m_path] := by
  subst hL
  obtain ⟨trS, hS, hSo, hSc⟩ := dm_load_ok env s hs hsu hsr hse hso
  obtain ⟨trA, hA, hAo, hAc⟩ := dm_load_ok env a ha hau har hae hao
  obtain ⟨trB, hB, hBo, hBc⟩ := dm_load_ok env b hb hbu hbr hbe hbo
  obtain ⟨trC, hC, hCo, hCc⟩ := dm_load_ok env c hc hcu hcr hce hco
  have hLoad : DynamicLoader.load env ⟨s, [some a, some b, some c]⟩
      = (⟨⟨s.m_path, some hs⟩,
          [some ⟨a.m_path, some ha⟩, some ⟨b.m_path, some hb⟩,
            some ⟨c.m_path, some hc⟩]⟩,
        (Event.opened s.m_path :: trS) ++
          ((Event.opened a.m_path :: trA) ++
            ((Event.opened b.m_path :: trB) ++
              ((Event.opened c.m_path :: trC) ++ []))),
        none) := by
    simp [DynamicLoader.load, DynamicLoader.load_modules, DynamicLoader.load_go,
      DynamicLibrary.is_unloaded, hau, hbu, hcu, hS, hA, hB, hC]
  obtain ⟨trS2, hS2, hS2o, hS2c⟩ :=
    dm_unload_ok env ⟨s.m_path, some hs⟩ hs rfl hscl
  obtain ⟨trA2, hA2, hA2o, hA2c⟩ :=
    dm_unload_ok env ⟨a.m_path, some ha⟩ ha rfl hacl
  obtain ⟨trB2, hB2, hB2o, hB2c⟩ :=
    dm_unload_ok env ⟨b.m_path, some hb⟩ hb rfl hbcl
  obtain ⟨trC2, hC2, hC2o, hC2c⟩ :=
    dm_unload_ok env ⟨c.m_path, some hc⟩ hc rfl hccl
  have hUnload : DynamicLoader.unload env
      ⟨⟨s.m_path, some hs⟩,
        [some ⟨a.m_path, some ha⟩, some ⟨b.m_path, some hb⟩,
          some ⟨c.m_path, some hc⟩]⟩
      = (⟨⟨s.m_path, none⟩,
          [some ⟨a.m_path, none⟩, some ⟨b.m_path, none⟩,
            some ⟨c.m_path, none⟩]⟩,
        ((trC2 ++ [Event.closed c.m_path]) ++
          ((trB2 ++ [Event.closed b.m_path]) ++
            ((trA2 ++ [Event.closed a.m_path]) ++ []))) ++
          (trS2 ++ [Event.closed s.m_path]),
        none) := by
    simp [DynamicLoader.unload, DynamicLoader.unload_modules,
      DynamicLoader.unload_go, DynamicLibrary.is_loaded,
      DynamicLibrary.is_unloaded, hS2, hA2, hB2, hC2]
  refine ⟨?_, ?_, ?_, ?_, ?_⟩
  · rw [hLoad]
  · rw [hLoad]
    simp only [openedPaths_append, openedPaths_cons_opened, openedPaths_nil,
      hSo, hAo, hBo, hCo, List.nil_append, List.append_nil]
    rfl
  · rw [hLoad]
  · rw [hLoad]
    rw [hUnload]
  · rw [hLoad]
    rw [hUnload]
    simp only [closedPaths_append, closedPaths_cons_closed, closedPaths_nil,
      hS2c, hA2c, hB2c, hC2c, List.nil_append, List.append_nil]
    rfl

/-- Witness for C1 at four concrete modules under the success-path
platform environment. -/
theorem dynamic_loader_order_witness :
    (DynamicLoader.load envOk ⟨libSelf, [some libA, some libB, some libC]⟩).2.2
        = none ∧
    openedPaths
        (DynamicLoader.load envOk
          ⟨libSelf, [some libA, some libB, some libC]⟩).2.1
      = [pathSelf, pathA, pathB, pathC] ∧
    (DynamicLoader.load envOk ⟨libSelf, [some libA, some libB, some libC]⟩).1
      = ⟨⟨pathSelf, some 1⟩,
          [some ⟨pathA, some 1⟩, some ⟨pathB, some 1⟩, some ⟨pathC, some 1⟩]⟩ ∧
    (DynamicLoader.unload envOk
        (DynamicLoader.load envOk
          ⟨libSelf, [some libA, some libB, some libC]⟩).1).2.2 = none ∧
    closedPaths
        (DynamicLoader.unload envOk
          (DynamicLoader.load envOk
            ⟨libSelf, [some libA, some libB, some libC]⟩).1).2.1
      = [pathC, pathB, pathA, pathSelf] := by
  have h := dynamic_loader_load_unload_order envOk libSelf libA libB libC
    1 1 1 1 ⟨libSelf, [some libA, some libB, some libC]⟩ rfl
    rfl rfl rfl rfl rfl rfl rfl rfl
    (by decide) (by decide) (by decide) (by decide)
    rfl rfl rfl rfl rfl rfl rfl rfl
  exact h

end Mi
